import Mathlib

/-!
Verification of the LieLens frontend core: the backend endpoint resolver
(`checkBackendConnection`), the analysis orchestrator (`analyzeContent`) and
the local heuristic synthesizer (`getDemoAnalysis`), shallowly embedded from
the enhanced frontend script.  Strings are modelled as Lean `String`s,
JavaScript regular-expression tests as executable scanners over `List Char`,
network effects as explicit outcome values passed to the orchestrator, and
the one impure input (`new Date().toISOString()`) as an explicit `now`
argument.
-/

namespace LieLens

/-! Character helpers: the JS regexes `/[A-Z]{4,}/` and the case-insensitive
flag `/i` act on ASCII letters. -/

/-- Whether a character is an ASCII capital letter, the class `[A-Z]`. -/
def isUpperAZ (c : Char) : Bool := 'A' ≤ c && c ≤ 'Z'

/-- ASCII lowercasing, the canonicalization the JS case-insensitive regex
applies to the (all-ASCII) trigger words and the subject text. -/
def lowerAZ (c : Char) : Char :=
  if 'A' ≤ c && c ≤ 'Z' then Char.ofNat (c.toNat + 32) else c

/-- Executable substring test: whether `w` occurs contiguously in the second
list.  Embeds `String.prototype.includes` and an alternation-free regex test. -/
def hasInfixB (w : List Char) : List Char → Bool
  | [] => w.isPrefixOf []
  | c :: rest => w.isPrefixOf (c :: rest) || hasInfixB w rest

/-- The fixed emotional-trigger vocabulary of the synthesizer's regex
`/breaking|shocking|secret|exclusive|banned|hidden|urgent/i`. -/
def triggerWords : List String :=
  ["breaking", "shocking", "secret", "exclusive", "banned", "hidden", "urgent"]

/-- `/breaking|shocking|secret|exclusive|banned|hidden|urgent/i.test(content)`:
some trigger word occurs in the ASCII-lowercased content. -/
def hasEmotionalWords (content : String) : Bool :=
  triggerWords.any (fun w => hasInfixB w.toList (content.toList.map lowerAZ))

/-- `/[A-Z]{4,}/.test(content)` on a character list: somewhere four
consecutive ASCII capitals occur. -/
def hasAllCaps4 : List Char → Bool
  | a :: b :: c :: d :: rest =>
      (isUpperAZ a && isUpperAZ b && isUpperAZ c && isUpperAZ d)
        || hasAllCaps4 (b :: c :: d :: rest)
  | _ => false

/-- `/[A-Z]{4,}/.test(content)`. -/
def hasAllCaps (content : String) : Bool := hasAllCaps4 content.toList

/-- `content.includes('!')`. -/
def includesExclamation (content : String) : Bool :=
  content.toList.any (fun c => c == '!')

/-- `content.includes('http')`. -/
def includesHttp (content : String) : Bool :=
  hasInfixB "http".toList content.toList

/-- `content.substring(0, 100)`: the first 100 characters. -/
def jsSubstring100 (content : String) : String :=
  String.mk (content.toList.take 100)

/-- `content.trim()`: ASCII whitespace stripped from both ends. -/
def jsTrim (s : String) : String :=
  String.mk (((s.toList.dropWhile Char.isWhitespace).reverse.dropWhile
    Char.isWhitespace).reverse)

/-! Declarative readings of the three content tests, used to state the claims
in the spec's language.  `MatchesTrigger` is decidable through Mathlib's
decidability of the infix relation. -/

/-- The content matches, case-insensitively, one of the trigger words. -/
def MatchesTrigger (content : String) : Prop :=
  ∃ w ∈ triggerWords, w.toList <:+: content.toList.map lowerAZ

/-- The content contains a run of 4 or more consecutive uppercase ASCII
letters: some four consecutive characters are all capitals. -/
def HasCapsRun (content : String) : Prop :=
  ∃ a b c d, [a, b, c, d] <:+: content.toList ∧
    isUpperAZ a = true ∧ isUpperAZ b = true ∧ isUpperAZ c = true ∧
    isUpperAZ d = true

/-! The Report value object, the schema of section 3 of the spec, as the
synthesizer builds it (lines 154-247 of the source). -/

/-- A detected manipulation tactic. -/
structure Tactic where
  tactic_name : String
  description : String
  example_from_content : String
  manipulation_type : String
deriving DecidableEq, Repr

/-- A targeted cognitive bias. -/
structure CognitiveBias where
  bias_name : String
  explanation : String
  how_its_exploited : String
  resistance_tip : String
deriving DecidableEq, Repr

/-- A fact-check flag. -/
structure FactCheckFlag where
  claim : String
  flag_reason : String
  verification_suggestion : String
deriving DecidableEq, Repr

/-- The `analysis_summary` group. -/
structure AnalysisSummary where
  risk_level : String
  risk_score : Int
  primary_concern : String
  credibility_rating : String
deriving DecidableEq, Repr

/-- The `educational_insights` group. -/
structure EducationalInsights where
  why_convincing : String
  target_audience : String
  psychological_appeal : String
  critical_questions : List String
  verification_steps : List String
deriving DecidableEq, Repr

/-- The `recommendations` group. -/
structure Recommendations where
  immediate_action : String
  further_research : List String
  share_decision : String
  learning_opportunity : String
deriving DecidableEq, Repr

/-- The `confidence_metrics` group. -/
structure ConfidenceMetrics where
  analysis_confidence : Int
  data_completeness : Int
  context_availability : String
deriving DecidableEq, Repr

/-- The `metadata` group; `analysis_timestamp` carries the call time. -/
structure Metadata where
  analysis_timestamp : String
  model_used : String
  content_length : Nat
  source_type : String
deriving DecidableEq, Repr

/-- The full Report. -/
structure Report where
  analysis_summary : AnalysisSummary
  detected_tactics : List Tactic
  cognitive_biases : List CognitiveBias
  fact_check_flags : List FactCheckFlag
  educational_insights : EducationalInsights
  recommendations : Recommendations
  confidence_metrics : ConfidenceMetrics
  metadata : Metadata
deriving DecidableEq, Repr

/-- The synthesizer's score accumulator, lines 145-149 of the source:
base 30, +25 for emotional words, +20 for a caps run, +10 for `!`,
-10 when the length is under 100. -/
def demoRiskScore (content : String) : Int :=
  let riskScore : Int := 30
  let riskScore := if hasEmotionalWords content then riskScore + 25 else riskScore
  let riskScore := if hasAllCaps content then riskScore + 20 else riskScore
  let riskScore := if includesExclamation content then riskScore + 10 else riskScore
  let riskScore := if content.length < 100 then riskScore - 10 else riskScore
  riskScore

/-- `getDemoAnalysis(content)`, lines 138-248 of the source: the local
heuristic synthesizer.  `now` is the value `new Date().toISOString()` takes
at the call. -/
def getDemoAnalysis (now : String) (content : String) : Report :=
  let contentLength := content.length
  let hasURL := includesHttp content
  let hasEmo := hasEmotionalWords content
  let riskScore := demoRiskScore content
  let riskLevel :=
    if riskScore > 70 then "HIGH" else if riskScore > 50 then "MEDIUM" else "LOW"
  let credibility :=
    if riskScore > 70 then "QUESTIONABLE"
    else if riskScore > 50 then "QUESTIONABLE" else "RELIABLE"
  { analysis_summary :=
      { risk_level := riskLevel
        risk_score := min riskScore 95
        primary_concern :=
          if hasEmo then "Content uses emotional manipulation and urgency tactics"
          else "Content appears relatively neutral"
        credibility_rating := credibility }
    detected_tactics :=
      if hasEmo then
        [ { tactic_name := "Emotional Manipulation"
            description := "Uses strong emotional language to bypass critical thinking"
            example_from_content := jsSubstring100 content ++ "..."
            manipulation_type := "EMOTIONAL" },
          { tactic_name := "Urgency Creation"
            description := "Creates artificial time pressure to prompt immediate action"
            example_from_content := "Act fast"
            manipulation_type := "SOCIAL" } ]
      else
        [ { tactic_name := "Demo Analysis"
            description := "This is a demonstration of our analysis capabilities"
            example_from_content := "Sample content analysis"
            manipulation_type := "LOGICAL" } ]
    cognitive_biases :=
      [ { bias_name := "Fear of Missing Out (FOMO)"
          explanation := "The tendency to feel anxiety about missing beneficial opportunities"
          how_its_exploited := "Content suggests exclusive or time-limited information"
          resistance_tip := "Ask yourself: What's the real urgency? Can I verify this independently?" },
        { bias_name := "Authority Bias"
          explanation := "Tendency to trust information from perceived authority figures"
          how_its_exploited := "References to 'scientists' or 'experts' without specific credentials"
          resistance_tip := "Check the actual credentials and affiliations of cited experts" } ]
    fact_check_flags :=
      if hasEmo then
        [ { claim := "Scientists are 'shocked' by this discovery"
            flag_reason := "Vague, unsupported claims about scientific consensus"
            verification_suggestion := "Look for peer-reviewed studies and specific researcher names" } ]
      else []
    educational_insights :=
      { why_convincing :=
          if hasEmo then "Uses emotional triggers and authority appeals to create trust and urgency"
          else "Content appears straightforward without obvious manipulation"
        target_audience := "People seeking health solutions or exclusive information"
        psychological_appeal := "Combines fear, hope, and exclusivity to motivate action"
        critical_questions :=
          [ "Who specifically are these 'scientists'?",
            "What evidence supports these claims?",
            "Why would this information be suppressed?",
            "What are the potential risks or side effects?" ]
        verification_steps :=
          [ "Search for peer-reviewed research on this topic",
            "Check multiple reputable health information sources",
            "Consult with healthcare professionals",
            "Look for potential conflicts of interest" ] }
    recommendations :=
      { immediate_action :=
          if riskScore > 70 then "Exercise extreme caution - verify all claims before acting"
          else "Proceed with normal fact-checking practices"
        further_research :=
          [ "Search scientific databases for related research",
            "Check fact-checking websites",
            "Consult domain experts" ]
        share_decision := if riskScore > 70 then "AVOID_SHARING" else "SHARE_WITH_CONTEXT"
        learning_opportunity := "Practice identifying emotional manipulation in content" }
    confidence_metrics :=
      { analysis_confidence := 75
        data_completeness := 60
        context_availability := "PARTIAL" }
    metadata :=
      { analysis_timestamp := now
        model_used := "demo-mode"
        content_length := contentLength
        source_type := if hasURL then "url" else "text" } }

/-! The JSON shape of a Report, as the JS object literal hands it to the
rendering collaborator: used to state schema completeness (required groups
present, list fields present as arrays). -/

/-- A JSON value. -/
inductive JValue where
  | str : String → JValue
  | num : Int → JValue
  | arr : List JValue → JValue
  | obj : List (String × JValue) → JValue

/-- Lookup of a key among an object's fields. -/
def lookupField : List (String × JValue) → String → Option JValue
  | [], _ => none
  | (k, v) :: rest, key => if k == key then some v else lookupField rest key

/-- Lookup of a key in a JSON object; `none` on other values. -/
def jLookup (j : JValue) (key : String) : Option JValue :=
  match j with
  | .obj fields => lookupField fields key
  | _ => none

/-- Lookup of a two-step path. -/
def jLookup2 (j : JValue) (k1 k2 : String) : Option JValue :=
  match jLookup j k1 with
  | some v => jLookup v k2
  | none => none

/-- Whether a looked-up value is present and an array. -/
def isArrSome : Option JValue → Bool
  | some (.arr _) => true
  | _ => false

/-- Whether a looked-up value is present and an object. -/
def isObjSome : Option JValue → Bool
  | some (.obj _) => true
  | _ => false

/-- A tactic as JSON. -/
def tacticToJson (t : Tactic) : JValue :=
  .obj [("tactic_name", .str t.tactic_name),
        ("description", .str t.description),
        ("example_from_content", .str t.example_from_content),
        ("manipulation_type", .str t.manipulation_type)]

/-- A cognitive bias as JSON. -/
def biasToJson (b : CognitiveBias) : JValue :=
  .obj [("bias_name", .str b.bias_name),
        ("explanation", .str b.explanation),
        ("how_its_exploited", .str b.how_its_exploited),
        ("resistance_tip", .str b.resistance_tip)]

/-- A fact-check flag as JSON. -/
def flagToJson (f : FactCheckFlag) : JValue :=
  .obj [("claim", .str f.claim),
        ("flag_reason", .str f.flag_reason),
        ("verification_suggestion", .str f.verification_suggestion)]

/-- A whole Report as the JSON object literal of lines 154-247. -/
def reportToJson (r : Report) : JValue :=
  .obj [("analysis_summary", .obj
          [("risk_level", .str r.analysis_summary.risk_level),
           ("risk_score", .num r.analysis_summary.risk_score),
           ("primary_concern", .str r.analysis_summary.primary_concern),
           ("credibility_rating", .str r.analysis_summary.credibility_rating)]),
        ("detected_tactics", .arr (r.detected_tactics.map tacticToJson)),
        ("cognitive_biases", .arr (r.cognitive_biases.map biasToJson)),
        ("fact_check_flags", .arr (r.fact_check_flags.map flagToJson)),
        ("educational_insights", .obj
          [("why_convincing", .str r.educational_insights.why_convincing),
           ("target_audience", .str r.educational_insights.target_audience),
           ("psychological_appeal", .str r.educational_insights.psychological_appeal),
           ("critical_questions", .arr (r.educational_insights.critical_questions.map .str)),
           ("verification_steps", .arr (r.educational_insights.verification_steps.map .str))]),
        ("recommendations", .obj
          [("immediate_action", .str r.recommendations.immediate_action),
           ("further_research", .arr (r.recommendations.further_research.map .str)),
           ("share_decision", .str r.recommendations.share_decision),
           ("learning_opportunity", .str r.recommendations.learning_opportunity)]),
        ("confidence_metrics", .obj
          [("analysis_confidence", .num r.confidence_metrics.analysis_confidence),
           ("data_completeness", .num r.confidence_metrics.data_completeness),
           ("context_availability", .str r.confidence_metrics.context_availability)]),
        ("metadata", .obj
          [("analysis_timestamp", .str r.metadata.analysis_timestamp),
           ("model_used", .str r.metadata.model_used),
           ("content_length", .num (Int.ofNat r.metadata.content_length)),
           ("source_type", .str r.metadata.source_type)])]

/-! The endpoint resolver, `checkBackendConnection` (lines 32-63): probe each
candidate base URL in order with a GET; a thrown network error and a non-2xx
response both mean "this candidate is unreachable"; the first candidate whose
response is ok wins and iteration stops. -/

/-- What a reachability probe of one candidate can produce: the fetch throws,
or it resolves with `response.ok` true or false. -/
inductive ProbeOutcome where
  | throws : ProbeOutcome
  | response : Bool → ProbeOutcome
deriving DecidableEq, Repr

/-- A probe counts as success exactly when the fetch resolved with an ok
status. -/
def probeSuccess : ProbeOutcome → Bool
  | .response true => true
  | _ => false

/-- The user-visible backend status signal. -/
inductive BackendStatus where
  | checking : BackendStatus
  | connected : BackendStatus
  | offline : BackendStatus
deriving DecidableEq, Repr

/-- What `checkBackendConnection` leaves behind: the cached
`activeBackendUrl`, the status signal, and the candidates it actually
probed, in order. -/
structure ResolveState where
  activeBackendUrl : Option String
  status : BackendStatus
  probed : List String
deriving DecidableEq, Repr

/-- `checkBackendConnection` over a candidate list, with the outcome of each
candidate's probe supplied by `probe`. -/
def checkBackendConnection (probe : String → ProbeOutcome) :
    List String → ResolveState
  | [] => { activeBackendUrl := none, status := .offline, probed := [] }
  | url :: rest =>
    if probeSuccess (probe url) then
      { activeBackendUrl := some url, status := .connected, probed := [url] }
    else
      let s := checkBackendConnection probe rest
      { activeBackendUrl := s.activeBackendUrl, status := s.status,
        probed := url :: s.probed }

/-! The analysis orchestrator, `analyzeContent` (lines 83-135).  The body of
a live `/analyze` response either parses (`response.json()` resolves to a
report) or is malformed (`response.json()` throws). -/

/-- The result of `await response.json()`. -/
inductive BodyParse where
  | parsed : Report → BodyParse
  | malformed : BodyParse

/-- What the live POST to `/analyze` can produce. -/
inductive FetchOutcome where
  | networkError : FetchOutcome
  | response : Bool → BodyParse → FetchOutcome

/-- What one run of `analyzeContent` leaves behind: the report handed to
`displayReport` (if any), the message shown through `showError` (if any),
whether the live POST was issued, and the notification shown (if any). -/
structure AnalyzeResult where
  report : Option Report
  error : Option String
  networkCalled : Bool
  notification : Option String

/-- `analyzeContent()`: trim the input; refuse empty input with a validation
error and no network call; with a resolved backend, POST and on any thrown
error (network failure, non-ok status, malformed body) fall back to
`getDemoAnalysis` with a notification; with no backend, synthesize directly.
`now` is the timestamp `getDemoAnalysis` would stamp. -/
def analyzeContent (now : String) (rawInput : String)
    (activeBackendUrl : Option String) (fetch : FetchOutcome) : AnalyzeResult :=
  let content := jsTrim rawInput
  if content = "" then
    { report := none, error := some "Please enter some content to analyze",
      networkCalled := false, notification := none }
  else
    match activeBackendUrl with
    | some _ =>
      match fetch with
      | .networkError =>
        { report := some (getDemoAnalysis now content), error := none,
          networkCalled := true,
          notification := some "Using demo mode - backend temporarily unavailable" }
      | .response ok body =>
        if ok then
          match body with
          | .parsed r =>
            { report := some r, error := none, networkCalled := true,
              notification := none }
          | .malformed =>
            { report := some (getDemoAnalysis now content), error := none,
              networkCalled := true,
              notification := some "Using demo mode - backend temporarily unavailable" }
        else
          { report := some (getDemoAnalysis now content), error := none,
            networkCalled := true,
            notification := some "Using demo mode - backend temporarily unavailable" }
    | none =>
      { report := some (getDemoAnalysis now content), error := none,
        networkCalled := false, notification := some "Running in demo mode" }

/-! Bridging lemmas: the executable scanners agree with the declarative
readings of the regex tests. -/

/-- The substring scanner decides the infix relation. -/
theorem hasInfixB_iff (w : List Char) (l : List Char) :
    hasInfixB w l = true ↔ w <:+: l := by
  induction l with
  | nil =>
    simp [hasInfixB]
  | cons c rest ih =>
    simp [hasInfixB, ih, List.infix_cons_iff]

/-- The emotional-words test holds exactly when some trigger word occurs in
the lowercased content. -/
theorem hasEmotionalWords_iff (content : String) :
    hasEmotionalWords content = true ↔ MatchesTrigger content := by
  unfold hasEmotionalWords MatchesTrigger
  simp [hasInfixB_iff]

/-- The caps-run scanner finds exactly the lists containing four consecutive
uppercase characters. -/
theorem hasAllCaps4_iff (l : List Char) :
    hasAllCaps4 l = true ↔ ∃ a b c d, [a, b, c, d] <:+: l ∧
      isUpperAZ a = true ∧ isUpperAZ b = true ∧ isUpperAZ c = true ∧
      isUpperAZ d = true := by
  induction l with
  | nil =>
    simp only [hasAllCaps4, Bool.false_eq_true, false_iff]
    rintro ⟨a, b, c, d, hinf, -⟩
    simpa using hinf.length_le
  | cons x t ih =>
    match t with
    | [] =>
      simp only [hasAllCaps4, Bool.false_eq_true, false_iff]
      rintro ⟨a, b, c, d, hinf, -⟩
      simpa using hinf.length_le
    | [y] =>
      simp only [hasAllCaps4, Bool.false_eq_true, false_iff]
      rintro ⟨a, b, c, d, hinf, -⟩
      simpa using hinf.length_le
    | [y, z] =>
      simp only [hasAllCaps4, Bool.false_eq_true, false_iff]
      rintro ⟨a, b, c, d, hinf, -⟩
      simpa using hinf.length_le
    | y :: z :: u :: r =>
      rw [show hasAllCaps4 (x :: y :: z :: u :: r)
            = ((isUpperAZ x && isUpperAZ y && isUpperAZ z && isUpperAZ u)
                || hasAllCaps4 (y :: z :: u :: r)) from rfl]
      constructor
      · intro h
        rcases Bool.or_eq_true _ _ |>.mp h with hw | hrec
        · simp only [Bool.and_eq_true] at hw
          exact ⟨x, y, z, u, ⟨[], r, rfl⟩, hw.1.1.1, hw.1.1.2, hw.1.2, hw.2⟩
        · obtain ⟨a, b, c, d, hinf, h1, h2, h3, h4⟩ := ih.mp hrec
          exact ⟨a, b, c, d, List.infix_cons hinf, h1, h2, h3, h4⟩
      · rintro ⟨a, b, c, d, hinf, h1, h2, h3, h4⟩
        rcases List.infix_cons_iff.mp hinf with hpre | hinf'
        · obtain ⟨s, hs⟩ := hpre
          simp only [List.cons_append, List.cons.injEq] at hs
          obtain ⟨rfl, rfl, rfl, rfl, -⟩ := hs
          rw [Bool.or_eq_true]
          left
          simp [h1, h2, h3, h4]
        · rw [Bool.or_eq_true]
          right
          exact ih.mpr ⟨a, b, c, d, hinf', h1, h2, h3, h4⟩

/-- The caps-run test on a string holds exactly when the content has a run of
four consecutive uppercase characters. -/
theorem hasAllCaps_iff (content : String) :
    hasAllCaps content = true ↔ HasCapsRun content :=
  hasAllCaps4_iff content.toList

/-- The exclamation test holds exactly when the content contains `!`. -/
theorem includesExclamation_iff (content : String) :
    includesExclamation content = true ↔ '!' ∈ content.toList := by
  unfold includesExclamation
  simp

/-! Helper lemmas about the synthesizer's score and summary fields. -/

/-- The sequential score accumulator equals the additive formula. -/
theorem demoRiskScore_sum (content : String) :
    demoRiskScore content =
      30 + (if hasEmotionalWords content then 25 else 0)
        + (if hasAllCaps content then 20 else 0)
        + (if includesExclamation content then 10 else 0)
        - (if content.length < 100 then 10 else 0) := by
  unfold demoRiskScore
  cases hE : hasEmotionalWords content <;> cases hC : hasAllCaps content <;>
    cases hX : includesExclamation content <;> simp <;> split_ifs <;> omega

/-- The raw score never falls below 20. -/
theorem demoRiskScore_lb (content : String) : 20 ≤ demoRiskScore content := by
  rw [demoRiskScore_sum]
  split_ifs <;> omega

/-- The reported `risk_score` is the raw score clamped above at 95. -/
theorem risk_score_proj (now content : String) :
    (getDemoAnalysis now content).analysis_summary.risk_score
      = min (demoRiskScore content) 95 := rfl

/-- The reported `risk_level` as a function of the raw score. -/
theorem risk_level_proj (now content : String) :
    (getDemoAnalysis now content).analysis_summary.risk_level
      = (if demoRiskScore content > 70 then "HIGH"
         else if demoRiskScore content > 50 then "MEDIUM" else "LOW") := rfl

/-- The reported `credibility_rating` as a function of the raw score. -/
theorem credibility_proj (now content : String) :
    (getDemoAnalysis now content).analysis_summary.credibility_rating
      = (if demoRiskScore content > 70 then "QUESTIONABLE"
         else if demoRiskScore content > 50 then "QUESTIONABLE"
         else "RELIABLE") := rfl

/-- C3: for every input string, the raw risk score is 30, plus 25 for a
case-insensitive trigger-word match, plus 20 for a run of 4 or more
consecutive uppercase letters, plus 10 for a literal `!`, minus 10 when the
length is under 100; the reported `risk_score` is exactly the raw score
clamped above at 95, with no lower clamp; and the three indicator tests mean
exactly the conditions the claim describes. -/
theorem risk_score_formula (now content : String) :
    (getDemoAnalysis now content).analysis_summary.risk_score
      = min (30 + (if hasEmotionalWords content then 25 else 0)
               + (if hasAllCaps content then 20 else 0)
               + (if includesExclamation content then 10 else 0)
               - (if content.length < 100 then 10 else 0)) 95
    ∧ (hasEmotionalWords content = true ↔ MatchesTrigger content)
    ∧ (hasAllCaps content = true ↔ HasCapsRun content)
    ∧ (includesExclamation content = true ↔ '!' ∈ content.toList) := by
  refine ⟨?_, hasEmotionalWords_iff content, hasAllCaps_iff content,
    includesExclamation_iff content⟩
  rw [risk_score_proj, demoRiskScore_sum]

/-- C4: `risk_level` is HIGH above 70, MEDIUM above 50, LOW otherwise;
`credibility_rating` is QUESTIONABLE exactly above 50; a raw score in
(50, 70] therefore reports MEDIUM together with QUESTIONABLE. -/
theorem risk_level_credibility_bands (now content : String) :
    ((getDemoAnalysis now content).analysis_summary.risk_level
        = if demoRiskScore content > 70 then "HIGH"
          else if demoRiskScore content > 50 then "MEDIUM" else "LOW")
    ∧ ((getDemoAnalysis now content).analysis_summary.credibility_rating
        = if demoRiskScore content > 50 then "QUESTIONABLE" else "RELIABLE")
    ∧ (50 < demoRiskScore content → demoRiskScore content ≤ 70 →
        (getDemoAnalysis now content).analysis_summary.risk_level = "MEDIUM"
        ∧ (getDemoAnalysis now content).analysis_summary.credibility_rating
            = "QUESTIONABLE") := by
  refine ⟨risk_level_proj now content, ?_, fun h1 h2 => ⟨?_, ?_⟩⟩
  · rw [credibility_proj]
    by_cases h70 : demoRiskScore content > 70
    · rw [if_pos h70, if_pos (by omega)]
    · rw [if_neg h70]
  · rw [risk_level_proj, if_neg (by omega), if_pos (by omega)]
  · rw [credibility_proj, if_neg (by omega), if_pos (by omega)]

/-- C10: the reported `risk_score` always lies in [20, 95], and the raw
score itself never falls below 20 (the single -10 deduction from the base 30
is the only subtraction), so the schema's allowance for scores near 0 is
never exercised by the synthesizer. -/
theorem risk_score_bounds (now content : String) :
    20 ≤ (getDemoAnalysis now content).analysis_summary.risk_score
    ∧ (getDemoAnalysis now content).analysis_summary.risk_score ≤ 95
    ∧ 20 ≤ demoRiskScore content := by
  have hlb : 20 ≤ demoRiskScore content := demoRiskScore_lb content
  rw [risk_score_proj]
  exact ⟨le_min hlb (by omega), min_le_right _ _, hlb⟩

/-- C7: the synthesizer is deterministic in everything except the timestamp:
for the same content, two calls at different times agree on the summary
(risk_score, risk_level, credibility_rating included), on every list field,
on every other group, and on every metadata field except
`analysis_timestamp`. -/
theorem synthesize_deterministic (now1 now2 content : String) :
    (getDemoAnalysis now1 content).analysis_summary
        = (getDemoAnalysis now2 content).analysis_summary
    ∧ (getDemoAnalysis now1 content).detected_tactics
        = (getDemoAnalysis now2 content).detected_tactics
    ∧ (getDemoAnalysis now1 content).cognitive_biases
        = (getDemoAnalysis now2 content).cognitive_biases
    ∧ (getDemoAnalysis now1 content).fact_check_flags
        = (getDemoAnalysis now2 content).fact_check_flags
    ∧ (getDemoAnalysis now1 content).educational_insights
        = (getDemoAnalysis now2 content).educational_insights
    ∧ (getDemoAnalysis now1 content).recommendations
        = (getDemoAnalysis now2 content).recommendations
    ∧ (getDemoAnalysis now1 content).confidence_metrics
        = (getDemoAnalysis now2 content).confidence_metrics
    ∧ (getDemoAnalysis now1 content).metadata.model_used
        = (getDemoAnalysis now2 content).metadata.model_used
    ∧ (getDemoAnalysis now1 content).metadata.content_length
        = (getDemoAnalysis now2 content).metadata.content_length
    ∧ (getDemoAnalysis now1 content).metadata.source_type
        = (getDemoAnalysis now2 content).metadata.source_type :=
  ⟨rfl, rfl, rfl, rfl, rfl, rfl, rfl, rfl, rfl, rfl⟩

/-- C8: on a trigger match the tactic list is the fixed two-entry list
(Emotional Manipulation, then Urgency Creation), the first entry quoting the
first 100 characters of the input followed by the ellipsis marker, and there
is exactly one fact-check flag; otherwise a single Demo Analysis placeholder
and no flags; the cognitive-bias list is always the same fixed two entries
(FOMO, Authority Bias). -/
theorem tactic_flag_population (now content : String) :
    (MatchesTrigger content →
      (getDemoAnalysis now content).detected_tactics
          = [ { tactic_name := "Emotional Manipulation"
                description := "Uses strong emotional language to bypass critical thinking"
                example_from_content := jsSubstring100 content ++ "..."
                manipulation_type := "EMOTIONAL" },
              { tactic_name := "Urgency Creation"
                description := "Creates artificial time pressure to prompt immediate action"
                example_from_content := "Act fast"
                manipulation_type := "SOCIAL" } ]
        ∧ (getDemoAnalysis now content).fact_check_flags.length = 1)
    ∧ (¬ MatchesTrigger content →
      (getDemoAnalysis now content).detected_tactics
          = [ { tactic_name := "Demo Analysis"
                description := "This is a demonstration of our analysis capabilities"
                example_from_content := "Sample content analysis"
                manipulation_type := "LOGICAL" } ]
        ∧ (getDemoAnalysis now content).fact_check_flags = [])
    ∧ (getDemoAnalysis now content).cognitive_biases
        = [ { bias_name := "Fear of Missing Out (FOMO)"
              explanation := "The tendency to feel anxiety about missing beneficial opportunities"
              how_its_exploited := "Content suggests exclusive or time-limited information"
              resistance_tip := "Ask yourself: What's the real urgency? Can I verify this independently?" },
            { bias_name := "Authority Bias"
              explanation := "Tendency to trust information from perceived authority figures"
              how_its_exploited := "References to 'scientists' or 'experts' without specific credentials"
              resistance_tip := "Check the actual credentials and affiliations of cited experts" } ] := by
  have htac : (getDemoAnalysis now content).detected_tactics
      = if hasEmotionalWords content then
          [ { tactic_name := "Emotional Manipulation"
              description := "Uses strong emotional language to bypass critical thinking"
              example_from_content := jsSubstring100 content ++ "..."
              manipulation_type := "EMOTIONAL" },
            { tactic_name := "Urgency Creation"
              description := "Creates artificial time pressure to prompt immediate action"
              example_from_content := "Act fast"
              manipulation_type := "SOCIAL" } ]
        else
          [ { tactic_name := "Demo Analysis"
              description := "This is a demonstration of our analysis capabilities"
              example_from_content := "Sample content analysis"
              manipulation_type := "LOGICAL" } ] := rfl
  have hflag : (getDemoAnalysis now content).fact_check_flags
      = if hasEmotionalWords content then
          [ { claim := "Scientists are 'shocked' by this discovery"
              flag_reason := "Vague, unsupported claims about scientific consensus"
              verification_suggestion := "Look for peer-reviewed studies and specific researcher names" } ]
        else [] := rfl
  refine ⟨fun h => ?_, fun h => ?_, rfl⟩
  · have hb : hasEmotionalWords content = true :=
      (hasEmotionalWords_iff content).mpr h
    rw [htac, hflag]
    simp only [if_pos hb]
    exact ⟨trivial, rfl⟩
  · have hb : ¬ (hasEmotionalWords content = true) :=
      fun hb => h ((hasEmotionalWords_iff content).mp hb)
    rw [htac, hflag]
    simp only [if_neg hb]
    exact ⟨trivial, trivial⟩

/-- C9: the synthesized Report, rendered as the JSON object handed to the
rendering collaborator, always carries the four required groups as objects
and every list-valued field as an array (possibly empty), never absent. -/
theorem report_schema_complete (now content : String) :
    isObjSome (jLookup (reportToJson (getDemoAnalysis now content))
        "analysis_summary") = true
    ∧ isObjSome (jLookup (reportToJson (getDemoAnalysis now content))
        "educational_insights") = true
    ∧ isObjSome (jLookup (reportToJson (getDemoAnalysis now content))
        "recommendations") = true
    ∧ isObjSome (jLookup (reportToJson (getDemoAnalysis now content))
        "confidence_metrics") = true
    ∧ isArrSome (jLookup (reportToJson (getDemoAnalysis now content))
        "detected_tactics") = true
    ∧ isArrSome (jLookup (reportToJson (getDemoAnalysis now content))
        "cognitive_biases") = true
    ∧ isArrSome (jLookup (reportToJson (getDemoAnalysis now content))
        "fact_check_flags") = true
    ∧ isArrSome (jLookup2 (reportToJson (getDemoAnalysis now content))
        "educational_insights" "critical_questions") = true
    ∧ isArrSome (jLookup2 (reportToJson (getDemoAnalysis now content))
        "educational_insights" "verification_steps") = true
    ∧ isArrSome (jLookup2 (reportToJson (getDemoAnalysis now content))
        "recommendations" "further_research") = true :=
  ⟨rfl, rfl, rfl, rfl, rfl, rfl, rfl, rfl, rfl, rfl⟩

/-! Resolver lemmas. -/

/-- When every candidate before `u` fails and `u` probes ok, resolution picks
`u`, reports connected, and probes exactly the candidates through `u`. -/
theorem resolve_picks_first (probe : String → ProbeOutcome) (u : String)
    (l2 : List String) :
    ∀ l1, (∀ v ∈ l1, probeSuccess (probe v) = false) →
      probeSuccess (probe u) = true →
      checkBackendConnection probe (l1 ++ u :: l2) =
        { activeBackendUrl := some u, status := .connected,
          probed := l1 ++ [u] } := by
  intro l1
  induction l1 with
  | nil =>
    intro _ hu
    simp [checkBackendConnection, hu]
  | cons a t ih =>
    intro hfail hu
    have ha : probeSuccess (probe a) = false := hfail a (by simp)
    have ht := ih (fun v hv => hfail v (by simp [hv])) hu
    simp [checkBackendConnection, ha, ht]

/-- When every candidate fails, resolution reports offline with no cached
URL, having probed the whole list. -/
theorem resolve_all_fail (probe : String → ProbeOutcome) :
    ∀ l, (∀ v ∈ l, probeSuccess (probe v) = false) →
      checkBackendConnection probe l =
        { activeBackendUrl := none, status := .offline, probed := l } := by
  intro l
  induction l with
  | nil => intro _; rfl
  | cons a t ih =>
    intro hfail
    have ha : probeSuccess (probe a) = false := hfail a (by simp)
    have ht := ih (fun v hv => hfail v (by simp [hv]))
    simp [checkBackendConnection, ha, ht]

/-- C2: the resolver probes candidates in list order and returns the first
whose probe succeeds, stopping there (the probed trace is exactly the prefix
through the first success, whatever the later candidates would answer); when
no candidate succeeds it caches no URL and signals offline. -/
theorem resolve_first_reachable (probe : String → ProbeOutcome)
    (l1 l2 l : List String) (u : String)
    (h1 : ∀ v ∈ l1, probeSuccess (probe v) = false)
    (h2 : probeSuccess (probe u) = true)
    (h3 : ∀ v ∈ l, probeSuccess (probe v) = false) :
    checkBackendConnection probe (l1 ++ u :: l2) =
      { activeBackendUrl := some u, status := .connected, probed := l1 ++ [u] }
    ∧ checkBackendConnection probe l =
      { activeBackendUrl := none, status := .offline, probed := l } :=
  ⟨resolve_picks_first probe u l2 l1 h1 h2, resolve_all_fail probe l h3⟩

/-! Orchestrator theorems. -/

/-- C6: input that is empty after trimming issues no network call, produces
no Report, and signals the validation error message. -/
theorem empty_input_validation (now raw : String) (backend : Option String)
    (fetch : FetchOutcome) (h : jsTrim raw = "") :
    (analyzeContent now raw backend fetch).networkCalled = false
    ∧ (analyzeContent now raw backend fetch).report = none
    ∧ (analyzeContent now raw backend fetch).error
        = some "Please enter some content to analyze" := by
  simp [analyzeContent, h]

/-- C5: when the live POST fails - the fetch throws, or it resolves with a
non-success status - the orchestrator returns exactly the synthesized report
for the trimmed content (stamped with the same call time) and surfaces no
error. -/
theorem live_failure_falls_back (now raw b : String) (fetch : FetchOutcome)
    (hne : jsTrim raw ≠ "")
    (hfail : fetch = .networkError ∨ ∃ body, fetch = .response false body) :
    (analyzeContent now raw (some b) fetch).report
        = some (getDemoAnalysis now (jsTrim raw))
    ∧ (analyzeContent now raw (some b) fetch).error = none := by
  rcases hfail with rfl | ⟨body, rfl⟩ <;> simp [analyzeContent, hne]

/-- C1 counterexample: a concrete call where the live POST returns a success
status but the body fails to parse, yet the orchestrator surfaces no error
and substitutes the synthesized report - contradicting the claim that such
calls surface an analysis error and are not downgraded to synthesis. -/
theorem malformed_success_cex :
    (analyzeContent "2025-01-01T00:00:00.000Z" "some story"
        (some "https://api.example") (.response true .malformed)).error = none
    ∧ (analyzeContent "2025-01-01T00:00:00.000Z" "some story"
        (some "https://api.example") (.response true .malformed)).report
      = some (getDemoAnalysis "2025-01-01T00:00:00.000Z" "some story") := by
  constructor <;> rfl

/-- C1 amended: when the live POST returns a success status but the body
fails to parse, the orchestrator does not surface an error; it substitutes
the synthesized report for the trimmed content and shows the demo-mode
notification, exactly as for network and status failures. -/
theorem malformed_success_falls_back (now raw b : String)
    (hne : jsTrim raw ≠ "") :
    (analyzeContent now raw (some b) (.response true .malformed)).report
        = some (getDemoAnalysis now (jsTrim raw))
    ∧ (analyzeContent now raw (some b) (.response true .malformed)).error = none
    ∧ (analyzeContent now raw (some b) (.response true .malformed)).notification
        = some "Using demo mode - backend temporarily unavailable" := by
  simp [analyzeContent, hne]

/-! Witnesses: each hypothesis-bearing claim theorem applied at a concrete
input. -/

/-- C2 witness: over the source's candidate list, with the first two
candidates unreachable and the last two reachable, resolution picks
localhost, probes nothing after it, and a list of only failing candidates
resolves offline. -/
theorem resolve_first_reachable_witness :
    checkBackendConnection
        (fun url => if url = "http://localhost:8000" then ProbeOutcome.response true
          else if url = "https://mindful-compass-api-1082426526892.us-central1.run.app"
            then ProbeOutcome.response true
          else if url = "https://your-railway-app.up.railway.app"
            then ProbeOutcome.response false
          else ProbeOutcome.throws)
        ["https://your-render-app.onrender.com",
         "https://your-railway-app.up.railway.app",
         "http://localhost:8000",
         "https://mindful-compass-api-1082426526892.us-central1.run.app"]
      = { activeBackendUrl := some "http://localhost:8000",
          status := .connected,
          probed := ["https://your-render-app.onrender.com",
                     "https://your-railway-app.up.railway.app",
                     "http://localhost:8000"] }
    ∧ checkBackendConnection
        (fun url => if url = "http://localhost:8000" then ProbeOutcome.response true
          else if url = "https://mindful-compass-api-1082426526892.us-central1.run.app"
            then ProbeOutcome.response true
          else if url = "https://your-railway-app.up.railway.app"
            then ProbeOutcome.response false
          else ProbeOutcome.throws)
        ["https://your-render-app.onrender.com",
         "https://your-railway-app.up.railway.app"]
      = { activeBackendUrl := none, status := .offline,
          probed := ["https://your-render-app.onrender.com",
                     "https://your-railway-app.up.railway.app"] } :=
  resolve_first_reachable
    (fun url => if url = "http://localhost:8000" then ProbeOutcome.response true
      else if url = "https://mindful-compass-api-1082426526892.us-central1.run.app"
        then ProbeOutcome.response true
      else if url = "https://your-railway-app.up.railway.app"
        then ProbeOutcome.response false
      else ProbeOutcome.throws)
    ["https://your-render-app.onrender.com",
     "https://your-railway-app.up.railway.app"]
    ["https://mindful-compass-api-1082426526892.us-central1.run.app"]
    ["https://your-render-app.onrender.com",
     "https://your-railway-app.up.railway.app"]
    "http://localhost:8000" (by decide) (by decide) (by decide)

/-- C6 witness: whitespace-only input produces the validation error with no
network call and no Report. -/
theorem empty_input_validation_witness :
    (analyzeContent "2025-01-01T00:00:00.000Z" "   " none
        FetchOutcome.networkError).networkCalled = false
    ∧ (analyzeContent "2025-01-01T00:00:00.000Z" "   " none
        FetchOutcome.networkError).report = none
    ∧ (analyzeContent "2025-01-01T00:00:00.000Z" "   " none
        FetchOutcome.networkError).error
        = some "Please enter some content to analyze" :=
  empty_input_validation "2025-01-01T00:00:00.000Z" "   " none
    FetchOutcome.networkError (by decide)

/-- C5 witness: a thrown network error on a concrete input yields exactly the
synthesized report and no error. -/
theorem live_failure_falls_back_witness :
    (analyzeContent "2025-01-01T00:00:00.000Z" "hello" (some "http://localhost:8000")
        FetchOutcome.networkError).report
        = some (getDemoAnalysis "2025-01-01T00:00:00.000Z" (jsTrim "hello"))
    ∧ (analyzeContent "2025-01-01T00:00:00.000Z" "hello" (some "http://localhost:8000")
        FetchOutcome.networkError).error = none :=
  live_failure_falls_back "2025-01-01T00:00:00.000Z" "hello" "http://localhost:8000"
    FetchOutcome.networkError (by decide) (Or.inl rfl)

/-- C1 amended witness: a success status with a malformed body, at a concrete
input, yields the synthesized report, no error, and the demo-mode
notification. -/
theorem malformed_success_falls_back_witness :
    (analyzeContent "2025-01-01T00:00:00.000Z" "hello there"
        (some "http://localhost:8000") (.response true .malformed)).report
        = some (getDemoAnalysis "2025-01-01T00:00:00.000Z" (jsTrim "hello there"))
    ∧ (analyzeContent "2025-01-01T00:00:00.000Z" "hello there"
        (some "http://localhost:8000") (.response true .malformed)).error = none
    ∧ (analyzeContent "2025-01-01T00:00:00.000Z" "hello there"
        (some "http://localhost:8000") (.response true .malformed)).notification
        = some "Using demo mode - backend temporarily unavailable" :=
  malformed_success_falls_back "2025-01-01T00:00:00.000Z" "hello there"
    "http://localhost:8000" (by decide)

/-- C4 witness: the input `secret!` scores 55, inside (50, 70], and reports
MEDIUM risk together with QUESTIONABLE credibility. -/
theorem risk_level_credibility_bands_witness :
    (50 < demoRiskScore "secret!" ∧ demoRiskScore "secret!" ≤ 70)
    ∧ (getDemoAnalysis "2025-01-01T00:00:00.000Z" "secret!").analysis_summary.risk_level
        = "MEDIUM"
    ∧ (getDemoAnalysis "2025-01-01T00:00:00.000Z" "secret!").analysis_summary.credibility_rating
        = "QUESTIONABLE" :=
  ⟨⟨by decide, by decide⟩,
    ((risk_level_credibility_bands "2025-01-01T00:00:00.000Z" "secret!").2.2
      (by decide) (by decide)).1,
    ((risk_level_credibility_bands "2025-01-01T00:00:00.000Z" "secret!").2.2
      (by decide) (by decide)).2⟩

/-- C8 witness: on a trigger-matching input the tactic list is the fixed
two-entry list quoting the content, and there is exactly one fact-check
flag. -/
theorem tactic_flag_population_witness :
    (getDemoAnalysis "2025-01-01T00:00:00.000Z" "BREAKING news!").detected_tactics
        = [ { tactic_name := "Emotional Manipulation"
              description := "Uses strong emotional language to bypass critical thinking"
              example_from_content := jsSubstring100 "BREAKING news!" ++ "..."
              manipulation_type := "EMOTIONAL" },
            { tactic_name := "Urgency Creation"
              description := "Creates artificial time pressure to prompt immediate action"
              example_from_content := "Act fast"
              manipulation_type := "SOCIAL" } ]
    ∧ (getDemoAnalysis "2025-01-01T00:00:00.000Z" "BREAKING news!").fact_check_flags.length
        = 1 :=
  (tactic_flag_population "2025-01-01T00:00:00.000Z" "BREAKING news!").1
    ⟨"breaking", by decide, ⟨[], " news!".toList, by decide⟩⟩

end LieLens
